import Mathlib

/-!
Shallow embedding of the chatbot backend in src/backend/app.py: a Flask
application with a JWT login endpoint, a token-gated keyword chatbot, a
token verification endpoint and a health check.

Python strings are sequences of code points, so the string operations the
code uses (substring containment via the in operator, str.lower,
str.startswith, slicing) are modelled over String.data, the list of
characters of a Lean string. The JWT library is modelled at the level the
code uses it: a token is either a signed payload (the structured view of a
well-formed JWT) or an arbitrary malformed string, the HMAC-SHA256
signature is idealised as an injective tag built from the secret and the
serialised payload, and jwt.decode verifies the signature by recomputation
and rejects an expired exp claim, collapsing every failure to a single
error as the bare except in the code does. Wall-clock instants are Int
seconds for token arithmetic and a broken-down Datetime record for the
formatted replies and timestamps.
-/

namespace Chatbot

/-- Containment of one character list in another, matching the semantics of
the Python expression kw in s. -/
def containsSub : List Char → List Char → Bool
  | [], kw => kw.isPrefixOf ([] : List Char)
  | c :: rest, kw => kw.isPrefixOf (c :: rest) || containsSub rest kw

/-- Python membership test kw in s on strings. -/
def strContains (s kw : String) : Bool := containsSub s.data kw.data

/-- Python str.lower, applied code point by code point. -/
def pyLower (s : String) : String := String.mk (s.data.map Char.toLower)

/-- Python s.startswith(p): p is a prefix of s, case-sensitively. -/
def pyStartsWith (s p : String) : Bool := p.data.isPrefixOf s.data

/-- Python slicing s[n:]: drop the first n code points. -/
def pyDrop (s : String) (n : Nat) : String := String.mk (s.data.drop n)

/-- Broken-down wall-clock instant, the fields of a Python datetime the
code reads through strftime and isoformat. -/
structure Datetime where
  year : Nat
  month : Nat
  day : Nat
  hour : Nat
  minute : Nat
  second : Nat
  microsecond : Nat
deriving DecidableEq

def pad2 (n : Nat) : String := if n < 10 then "0" ++ toString n else toString n

def pad4 (n : Nat) : String :=
  if n < 10 then "000" ++ toString n
  else if n < 100 then "00" ++ toString n
  else if n < 1000 then "0" ++ toString n
  else toString n

def pad6 (n : Nat) : String :=
  if n < 10 then "00000" ++ toString n
  else if n < 100 then "0000" ++ toString n
  else if n < 1000 then "000" ++ toString n
  else if n < 10000 then "00" ++ toString n
  else if n < 100000 then "0" ++ toString n
  else toString n

def monthName (m : Nat) : String :=
  (["January", "February", "March", "April", "May", "June", "July",
    "August", "September", "October", "November", "December"]).getD (m - 1) ""

/-- Python strftime with format I colon M space p: 12-hour time such as
10:30 AM, as used by the time reply. -/
def strftimeClock (d : Datetime) : String :=
  (pad2 (if d.hour % 12 = 0 then 12 else d.hour % 12)) ++ ":" ++ pad2 d.minute
    ++ " " ++ (if d.hour < 12 then "AM" else "PM")

/-- Python strftime with format B d comma Y: a date such as
November 12, 2025, as used by the date reply. -/
def strftimeDate (d : Datetime) : String :=
  monthName d.month ++ " " ++ pad2 d.day ++ ", " ++ pad4 d.year

/-- Python datetime.isoformat: the ISO-8601 rendering of the instant, the
fractional part omitted exactly when the microsecond field is zero. -/
def isoformat (d : Datetime) : String :=
  pad4 d.year ++ "-" ++ pad2 d.month ++ "-" ++ pad2 d.day ++ "T"
    ++ pad2 d.hour ++ ":" ++ pad2 d.minute ++ ":" ++ pad2 d.second
    ++ (if d.microsecond = 0 then "" else "." ++ pad6 d.microsecond)

/-- Payload of a JWT as the code builds and reads it: optional username and
name claims and an optional integer exp claim in seconds. -/
structure TokenPayload where
  username : Option String
  name : Option String
  exp : Option Int
deriving DecidableEq

/-- A token as jwt.decode sees it: a well-formed signed payload, or a
malformed string whose decoding raises. -/
inductive Token where
  | signed (payload : TokenPayload) (sig : String)
  | malformed (raw : String)
deriving DecidableEq

/-- Length-prefixed serialisation of a string, used to build injective
serialisations of payloads. -/
def encStr (s : String) : String := toString s.data.length ++ ":" ++ s

def encOptStr : Option String → String
  | none => "N"
  | some s => "S" ++ encStr s

def encOptInt : Option Int → String
  | none => "N"
  | some i => "I" ++ toString i ++ ";"

def encPayload (p : TokenPayload) : String :=
  encOptStr p.username ++ encOptStr p.name ++ encOptInt p.exp

/-- Idealised HMAC-SHA256 over the serialised payload with the shared
secret: verification recomputes this tag and compares, exactly as HMAC
verification does. -/
def signPayload (secret : String) (p : TokenPayload) : String :=
  "HS256<" ++ encStr secret ++ "|" ++ encPayload p ++ ">"

/-- Compact serialisation of a token; a malformed token is just its raw
text. -/
def tokenString : Token → String
  | .signed p sig => "S" ++ encPayload p ++ sig
  | .malformed raw => raw

def readNatAux : List Char → Nat → Option (Nat × List Char)
  | [], _ => none
  | c :: cs, acc =>
    if c = ':' then some (acc, cs)
    else if c.isDigit then readNatAux cs (acc * 10 + (c.toNat - 48))
    else none

def readNetStr (cs : List Char) : Option (String × List Char) :=
  match readNatAux cs 0 with
  | some (n, rest) =>
    if n ≤ rest.length then some (String.mk (rest.take n), rest.drop n) else none
  | none => none

def readOptStr : List Char → Option (Option String × List Char)
  | [] => none
  | c :: cs =>
    if c = 'N' then some (none, cs)
    else if c = 'S' then
      match readNetStr cs with
      | some (s, rest) => some (some s, rest)
      | none => none
    else none

def readIntAux : List Char → Nat → Option (Nat × List Char)
  | [], _ => none
  | c :: cs, acc =>
    if c = ';' then some (acc, cs)
    else if c.isDigit then readIntAux cs (acc * 10 + (c.toNat - 48))
    else none

def readOptInt : List Char → Option (Option Int × List Char)
  | [] => none
  | c :: cs =>
    if c = 'N' then some (none, cs)
    else if c = 'I' then
      match cs with
      | '-' :: cs2 =>
        match readIntAux cs2 0 with
        | some (n, rest) => some (some (-(n : Int)), rest)
        | none => none
      | _ =>
        match readIntAux cs 0 with
        | some (n, rest) => some (some ((n : Nat) : Int), rest)
        | none => none
    else none

/-- Structured view of a token string: the parsing jwt.decode performs
before verification; anything unparseable is malformed. -/
def parseToken (s : String) : Token :=
  match s.data with
  | 'S' :: cs =>
    match readOptStr cs with
    | some (u, cs1) =>
      match readOptStr cs1 with
      | some (n, cs2) =>
        match readOptInt cs2 with
        | some (e, rest) => Token.signed ⟨u, n, e⟩ (String.mk rest)
        | none => Token.malformed s
      | none => Token.malformed s
    | none => Token.malformed s
  | _ => Token.malformed s

/-- jwt.encode(payload, secret, algorithm HS256): serialise and sign. -/
def jwt_encode (p : TokenPayload) (secret : String) : String :=
  tokenString (Token.signed p (signPayload secret p))

/-- jwt.decode on the structured view of the token: signature verification
by recomputation, then rejection of an exp claim not in the future; every
failure collapses to none, as the bare except in token_required sees a
single exception outcome. -/
def jwtDecodeT (t : Token) (secret : String) (now : Int) : Option TokenPayload :=
  match t with
  | .malformed _ => none
  | .signed p sig =>
    if sig = signPayload secret p then
      match p.exp with
      | some e => if e ≤ now then none else some p
      | none => some p
    else none

/-- jwt.decode(token, secret, algorithms HS256) at time now. -/
def jwt_decode (s : String) (secret : String) (now : Int) : Option TokenPayload :=
  jwtDecodeT (parseToken s) secret now

/-- Default of app.config SECRET_KEY when the environment variable is
unset; the theorems take the configured secret as a parameter. -/
def SECRET_KEY : String := "your-secret-key-change-in-production"

structure UserRec where
  password : String
  name : String
deriving DecidableEq

/-- The in-memory user dictionary of the backend. -/
def users : List (String × UserRec) :=
  [("admin", { password := "admin123", name := "Admin User" }),
   ("user", { password := "user123", name := "Test User" })]

/-- Outcome of a token_required wrapper around a handler producing α: an
early JSON rejection with a status code, or the wrapped handler's value. -/
inductive GateResult (α : Type) where
  | reject (status : Nat) (message : String)
  | pass (value : α)
deriving DecidableEq

/-- Body of the try block of token_required on the structured token: decode
with the secret, read the username claim (a missing claim raises KeyError,
caught by the same bare except), then call the handler on it. -/
def validateGate {α : Type} (f : String → α) (t : Token) (secret : String)
    (now : Int) : GateResult α :=
  match jwtDecodeT t secret now with
  | none => .reject 401 "Token is invalid!"
  | some data =>
    match data.username with
    | none => .reject 401 "Token is invalid!"
    | some current_user => .pass (f current_user)

/-- Lines 86 and 87 of app.py: drop the first seven characters when the
header value starts with the literal Bearer and a space. -/
def stripBearer (token : String) : String :=
  if pyStartsWith token "Bearer " then pyDrop token 7 else token

/-- The token_required decorator: a missing or empty Authorization header
is rejected as missing, otherwise the optional Bearer prefix is stripped
and the remainder decoded; on success the handler runs on the username
from the token. -/
def token_required {α : Type} (f : String → α) (auth : Option String)
    (secret : String) (now : Int) : GateResult α :=
  match auth with
  | none => .reject 401 "Token is missing!"
  | some token =>
    if token = "" then .reject 401 "Token is missing!"
    else validateGate f (parseToken (stripBearer token)) secret now

structure LoginData where
  username : Option String
  password : Option String
deriving DecidableEq

inductive LoginResponse where
  | badRequest (status : Nat) (message : String)
  | unauthorized (status : Nat) (message : String)
  | success (status : Nat) (message : String) (token : String)
      (userUsername : String) (userName : String)
deriving DecidableEq

/-- Python truthiness test for data.get(field): the field is absent or the
empty string. -/
def falsy : Option String → Bool
  | none => true
  | some s => s = ""

/-- The token payload login builds: the username, the display name from the
user record, and an expiry 24 hours past issuance. -/
def token_payload (username name : String) (now : Int) : TokenPayload :=
  { username := some username, name := some name, exp := some (now + 86400) }

/-- POST /api/login: missing or empty credentials give 400, an unknown
username or wrong password gives 401, and a match issues a signed token
expiring in 24 hours. -/
def login (data : Option LoginData) (secret : String) (now : Int) : LoginResponse :=
  match data with
  | none => .badRequest 400 "Missing username or password"
  | some d =>
    if falsy d.username || falsy d.password then
      .badRequest 400 "Missing username or password"
    else
      let username := d.username.getD ""
      let password := d.password.getD ""
      match users.lookup username with
      | some r =>
        if r.password = password then
          .success 200 "Login successful"
            (jwt_encode (token_payload username r.name now) secret)
            username r.name
        else .unauthorized 401 "Invalid username or password"
      | none => .unauthorized 401 "Invalid username or password"

structure ChatData where
  message : Option String
deriving DecidableEq

inductive ChatResponse where
  | badRequest (status : Nat) (message : String)
  | ok (status : Nat) (response : String) (timestamp : String)
deriving DecidableEq

/-- The keyword-matching if chain of the chat handler, applied to the
lowercased message; the clock feeds the time and date replies. -/
def botReply (current_user user_message : String) (clock : Datetime) : String :=
  if strContains user_message "hello" || strContains user_message "hi" then
    "Hello " ++ current_user ++ "! How can I help you today?"
  else if strContains user_message "how are you" then
    "I'm doing great! Thanks for asking. How can I assist you?"
  else if strContains user_message "bye" || strContains user_message "goodbye" then
    "Goodbye! Have a great day!"
  else if strContains user_message "help" then
    "I'm here to help! You can ask me questions or just chat with me."
  else if strContains user_message "weather" then
    "I'm sorry, I don't have access to weather data yet, but it's probably nice wherever you are!"
  else if strContains user_message "time" then
    "The current time is " ++ strftimeClock clock
  else if strContains user_message "date" then
    "Today's date is " ++ strftimeDate clock
  else if strContains user_message "name" then
    "I'm ChatBot, your friendly AI assistant!"
  else
    "That's interesting! Tell me more, or ask me something else."

/-- Body of the chat handler, abstracted over the reply generator so that
theorems can state that the 400 path never consults it; the real handler
is chat below, which instantiates gen with botReply. -/
def chatWith (gen : String → String → Datetime → String) (current_user : String)
    (data : Option ChatData) (clock : Datetime) : ChatResponse :=
  match data with
  | none => .badRequest 400 "No message provided"
  | some d =>
    match d.message with
    | none => .badRequest 400 "No message provided"
    | some m =>
      if m = "" then .badRequest 400 "No message provided"
      else .ok 200 (gen current_user (pyLower m) clock) (isoformat clock)

/-- POST /api/chat handler body after the gate: 400 on a missing or empty
message, otherwise the keyword reply and an isoformat timestamp. -/
def chat (current_user : String) (data : Option ChatData) (clock : Datetime) :
    ChatResponse :=
  chatWith botReply current_user data clock

/-- POST /api/chat as routed: token_required wrapped around chat. -/
def chatEndpoint (auth : Option String) (body : Option ChatData)
    (secret : String) (now : Int) (clock : Datetime) : GateResult ChatResponse :=
  token_required (fun current_user => chat current_user body clock) auth secret now

inductive VerifyResponse where
  | ok (status : Nat) (message : String) (user : String)
deriving DecidableEq

/-- GET /api/verify handler body after the gate. -/
def verify_token (current_user : String) : VerifyResponse :=
  .ok 200 "Token is valid" current_user

/-- GET /api/verify as routed: token_required wrapped around verify_token. -/
def verifyEndpoint (auth : Option String) (secret : String) (now : Int) :
    GateResult VerifyResponse :=
  token_required verify_token auth secret now

/-- Modelled from the spec: the ordered keyword groups of the matching
policy (greeting, wellbeing, farewell, help, weather, time, date,
identity), each paired with its reply; the fallback group is the final
default of firstMatch. -/
def keywordGroups (current_user : String) (clock : Datetime) :
    List (List String × String) :=
  [(["hello", "hi"], "Hello " ++ current_user ++ "! How can I help you today?"),
   (["how are you"], "I'm doing great! Thanks for asking. How can I assist you?"),
   (["bye", "goodbye"], "Goodbye! Have a great day!"),
   (["help"], "I'm here to help! You can ask me questions or just chat with me."),
   (["weather"], "I'm sorry, I don't have access to weather data yet, but it's probably nice wherever you are!"),
   (["time"], "The current time is " ++ strftimeClock clock),
   (["date"], "Today's date is " ++ strftimeDate clock),
   (["name"], "I'm ChatBot, your friendly AI assistant!")]

/-- Modelled from the spec: the reply of the fallback group. -/
def fallbackReply : String :=
  "That's interesting! Tell me more, or ask me something else."

/-- Modelled from the spec: first-match-wins substring containment over an
ordered list of keyword groups, falling back when no group matches. -/
def firstMatch (msg : String) : List (List String × String) → String
  | [] => fallbackReply
  | (kws, reply) :: rest =>
    if kws.any (fun kw => strContains msg kw) then reply else firstMatch msg rest

/-- A concrete token issued by login for admin at time zero with the
default secret, used by concrete instances. -/
def adminTokenAt0 : String :=
  jwt_encode (token_payload "admin" "Admin User" 0) SECRET_KEY

/-- A concrete wall-clock instant for concrete instances. -/
def sampleClock : Datetime := ⟨2025, 11, 12, 10, 30, 0, 123456⟩

end Chatbot

namespace Chatbot

theorem data_append (a b : String) : (a ++ b).data = a.data ++ b.data := by
  cases a; cases b; rfl

theorem mk_data (s : String) : String.mk s.data = s := by
  cases s; rfl

theorem isPrefixOf_self_append (l r : List Char) : l.isPrefixOf (l ++ r) = true := by
  induction l with
  | nil => simp
  | cons a as ih => simp [ih]

theorem stripBearer_of_bearer (s : String) : stripBearer ("Bearer " ++ s) = s := by
  have h1 : pyStartsWith ("Bearer " ++ s) "Bearer " = true := by
    unfold pyStartsWith
    rw [data_append]
    exact isPrefixOf_self_append _ _
  have h7 : ("Bearer " : String).data.length = 7 := by decide
  unfold stripBearer
  rw [h1]
  unfold pyDrop
  rw [if_pos rfl, data_append, List.drop_left' h7, mk_data]

theorem bearer_append_ne_empty (s : String) : ("Bearer " ++ s) ≠ "" := by
  intro h
  have := congrArg String.data h
  rw [data_append] at this
  simp at this

end Chatbot

namespace Chatbot

/-- C9: a request to a protected endpoint (POST /api/chat or GET
/api/verify) with no Authorization header is answered 401 with the message
Token is missing!, and the wrapped handler is not invoked: the gate result
is the same for every handler. -/
theorem C9_missing_header (α : Type) (f g : String → α) (secret : String)
    (now : Int) (body : Option ChatData) (clock : Datetime) :
    token_required f none secret now = GateResult.reject 401 "Token is missing!"
    ∧ token_required f none secret now = token_required g none secret now
    ∧ chatEndpoint none body secret now clock
        = GateResult.reject 401 "Token is missing!"
    ∧ verifyEndpoint none secret now = GateResult.reject 401 "Token is missing!" :=
  ⟨rfl, rfl, rfl, rfl⟩

/-- C8: an authenticated chat request whose body is absent, lacks a message
field, or carries an empty message is answered 400 with the message No
message provided, and the reply generator is never consulted: the outcome
is the same for every generator. -/
theorem C8_empty_message (g1 g2 : String → String → Datetime → String)
    (current_user : String) (body : Option ChatData) (clock : Datetime)
    (hb : body = none ∨ body = some ⟨none⟩ ∨ body = some ⟨some ""⟩) :
    chatWith g1 current_user body clock
      = ChatResponse.badRequest 400 "No message provided"
    ∧ chatWith g1 current_user body clock = chatWith g2 current_user body clock := by
  rcases hb with h | h | h <;> subst h <;> exact ⟨rfl, rfl⟩

theorem C8_empty_message_witness :
    ((some ⟨some ""⟩ : Option ChatData) = none
        ∨ (some ⟨some ""⟩ : Option ChatData) = some ⟨none⟩
        ∨ (some ⟨some ""⟩ : Option ChatData) = some ⟨some ""⟩)
    ∧ chatWith botReply "admin" (some ⟨some ""⟩) ⟨2025, 11, 12, 10, 30, 0, 0⟩
        = ChatResponse.badRequest 400 "No message provided"
    ∧ chatWith botReply "admin" (some ⟨some ""⟩) ⟨2025, 11, 12, 10, 30, 0, 0⟩
        = chatWith (fun _ _ _ => "") "admin" (some ⟨some ""⟩) ⟨2025, 11, 12, 10, 30, 0, 0⟩ :=
  ⟨Or.inr (Or.inr rfl),
    C8_empty_message botReply (fun _ _ _ => "") "admin" _ _ (Or.inr (Or.inr rfl))⟩

/-- C4: the gate strips the Authorization value to its tail after the exact
case-sensitive seven-character prefix Bearer and a space when that prefix
is present, passes the value unchanged otherwise, and a header with the
prefix and the bare remainder are treated identically by token_required. -/
theorem C4_bearer_handling (t s : String) (α : Type) (f : String → α)
    (secret : String) (now : Int)
    (hb : pyStartsWith t "Bearer " = true)
    (hn : pyStartsWith s "Bearer " = false)
    (hs : s ≠ "") :
    stripBearer t = pyDrop t 7
    ∧ stripBearer s = s
    ∧ token_required f (some ("Bearer " ++ s)) secret now
        = token_required f (some s) secret now := by
  refine ⟨by simp [stripBearer, hb], by simp [stripBearer, hn], ?_⟩
  have e1 : token_required f (some ("Bearer " ++ s)) secret now
      = if ("Bearer " ++ s) = "" then GateResult.reject 401 "Token is missing!"
        else validateGate f (parseToken (stripBearer ("Bearer " ++ s))) secret now := rfl
  have e2 : token_required f (some s) secret now
      = if s = "" then GateResult.reject 401 "Token is missing!"
        else validateGate f (parseToken (stripBearer s)) secret now := rfl
  have h2 : stripBearer s = s := by simp [stripBearer, hn]
  rw [e1, e2, if_neg (bearer_append_ne_empty s), if_neg hs, stripBearer_of_bearer, h2]

theorem C4_bearer_handling_witness :
    pyStartsWith "Bearer abc" "Bearer " = true
    ∧ pyStartsWith "bearer abc" "Bearer " = false
    ∧ "bearer abc" ≠ ""
    ∧ (stripBearer "Bearer abc" = pyDrop "Bearer abc" 7
       ∧ stripBearer "bearer abc" = "bearer abc"
       ∧ token_required (fun u => u) (some ("Bearer " ++ "bearer abc")) SECRET_KEY 0
           = token_required (fun u => u) (some "bearer abc") SECRET_KEY 0) :=
  ⟨by decide, by decide, by decide,
    C4_bearer_handling "Bearer abc" "bearer abc" String (fun u => u) SECRET_KEY 0
      (by decide) (by decide) (by decide)⟩

end Chatbot

namespace Chatbot

/-- C1: a session token (a signed payload carrying a username claim and an
exp claim) is accepted by the gate validation exactly when its signature
recomputes from the configured secret and its expiry is still in the
future, and a token issued with expiry now plus 24 hours decodes
successfully one minute before that expiry and fails one minute after it;
validation is a pure function of token, secret and time, so no other
server-side state takes part. -/
theorem C1_accept_iff_sig_and_expiry (p : TokenPayload) (sig secret : String)
    (now e : Int) (u : String) (α : Type) (f : String → α)
    (hu : p.username = some u) (he : p.exp = some e) :
    (validateGate f (Token.signed p sig) secret now = GateResult.pass (f u)
      ↔ (sig = signPayload secret p ∧ now < e))
    ∧ (∀ (uname dname : String) (t : Int),
        jwtDecodeT (Token.signed (token_payload uname dname t)
            (signPayload secret (token_payload uname dname t))) secret (t + 86340)
          = some (token_payload uname dname t)
        ∧ jwtDecodeT (Token.signed (token_payload uname dname t)
            (signPayload secret (token_payload uname dname t))) secret (t + 86460)
          = none) := by
  constructor
  · constructor
    · intro h
      by_cases hsig : sig = signPayload secret p
      · refine ⟨hsig, ?_⟩
        by_cases hle : e ≤ now
        · exfalso
          simp [validateGate, jwtDecodeT, hsig, he, hle] at h
        · omega
      · exfalso
        simp [validateGate, jwtDecodeT, hsig] at h
    · rintro ⟨hsig, hlt⟩
      have hle : ¬ e ≤ now := by omega
      simp [validateGate, jwtDecodeT, hsig, he, hle, hu]
  · intro uname dname t
    constructor
    · have h1 : ¬ (t + 86400 ≤ t + 86340) := by omega
      simp [jwtDecodeT, token_payload, h1]
    · have h2 : t + 86400 ≤ t + 86460 := by omega
      simp [jwtDecodeT, token_payload, h2]

theorem C1_accept_iff_sig_and_expiry_witness :
    (token_payload "admin" "Admin User" 0).username = some "admin"
    ∧ (token_payload "admin" "Admin User" 0).exp = some 86400
    ∧ ((validateGate (fun u => u) (Token.signed (token_payload "admin" "Admin User" 0)
          (signPayload SECRET_KEY (token_payload "admin" "Admin User" 0))) SECRET_KEY 100
        = GateResult.pass "admin"
      ↔ (signPayload SECRET_KEY (token_payload "admin" "Admin User" 0)
            = signPayload SECRET_KEY (token_payload "admin" "Admin User" 0)
          ∧ (100 : Int) < 86400))
      ∧ (∀ (uname dname : String) (t : Int),
          jwtDecodeT (Token.signed (token_payload uname dname t)
              (signPayload SECRET_KEY (token_payload uname dname t))) SECRET_KEY (t + 86340)
            = some (token_payload uname dname t)
          ∧ jwtDecodeT (Token.signed (token_payload uname dname t)
              (signPayload SECRET_KEY (token_payload uname dname t))) SECRET_KEY (t + 86460)
            = none)) :=
  ⟨rfl, rfl,
    C1_accept_iff_sig_and_expiry (token_payload "admin" "Admin User" 0)
      (signPayload SECRET_KEY (token_payload "admin" "Admin User" 0)) SECRET_KEY 100 86400
      "admin" String (fun u => u) rfl rfl⟩

/-- C10: a token whose signature verifies and whose expiry is in the future
but whose payload lacks a username claim is still rejected by the gate with
401 and the message Token is invalid!: the KeyError on the missing claim is
caught by the same bare except as a failed decode. -/
theorem C10_missing_username_claim (s secret : String) (now e : Int)
    (p : TokenPayload) (sig : String) (α : Type) (f : String → α)
    (hs : s ≠ "")
    (hparse : parseToken (stripBearer s) = Token.signed p sig)
    (hsig : sig = signPayload secret p)
    (hexp : p.exp = some e) (hfut : now < e)
    (hu : p.username = none) :
    token_required f (some s) secret now = GateResult.reject 401 "Token is invalid!" := by
  have e1 : token_required f (some s) secret now
      = if s = "" then GateResult.reject 401 "Token is missing!"
        else validateGate f (parseToken (stripBearer s)) secret now := rfl
  have hle : ¬ e ≤ now := by omega
  rw [e1, if_neg hs, hparse]
  simp [validateGate, jwtDecodeT, hsig, hexp, hle, hu]

theorem C10_missing_username_claim_witness :
    tokenString (Token.signed ⟨none, some "Ghost", some 86400⟩
        (signPayload SECRET_KEY ⟨none, some "Ghost", some 86400⟩)) ≠ ""
    ∧ parseToken (stripBearer (tokenString (Token.signed ⟨none, some "Ghost", some 86400⟩
        (signPayload SECRET_KEY ⟨none, some "Ghost", some 86400⟩))))
      = Token.signed ⟨none, some "Ghost", some 86400⟩
          (signPayload SECRET_KEY ⟨none, some "Ghost", some 86400⟩)
    ∧ (⟨none, some "Ghost", some 86400⟩ : TokenPayload).exp = some 86400
    ∧ (0 : Int) < 86400
    ∧ (⟨none, some "Ghost", some 86400⟩ : TokenPayload).username = none
    ∧ token_required (fun u => u)
        (some (tokenString (Token.signed ⟨none, some "Ghost", some 86400⟩
          (signPayload SECRET_KEY ⟨none, some "Ghost", some 86400⟩)))) SECRET_KEY 0
        = GateResult.reject 401 "Token is invalid!" :=
  ⟨by decide, by decide, rfl, by decide, rfl,
    C10_missing_username_claim
      (tokenString (Token.signed ⟨none, some "Ghost", some 86400⟩
        (signPayload SECRET_KEY ⟨none, some "Ghost", some 86400⟩)))
      SECRET_KEY 0 86400 ⟨none, some "Ghost", some 86400⟩
      (signPayload SECRET_KEY ⟨none, some "Ghost", some 86400⟩) String (fun u => u)
      (by decide) (by decide) rfl rfl (by decide) rfl⟩

/-- C3: a protected endpoint whose Authorization header carries a token
failing validation for any reason, a failed decode (expired, malformed or
wrongly signed) or a missing username claim, answers 401 with the single
message Token is invalid!, with no distinction between the causes. -/
theorem C3_uniform_invalid (s secret : String) (now : Int)
    (body : Option ChatData) (clock : Datetime)
    (hs : s ≠ "")
    (hfail : jwt_decode (stripBearer s) secret now = none
      ∨ ∃ p, jwt_decode (stripBearer s) secret now = some p ∧ p.username = none) :
    chatEndpoint (some s) body secret now clock
      = GateResult.reject 401 "Token is invalid!"
    ∧ verifyEndpoint (some s) secret now
      = GateResult.reject 401 "Token is invalid!" := by
  have core : ∀ (α : Type) (f : String → α),
      validateGate f (parseToken (stripBearer s)) secret now
        = GateResult.reject 401 "Token is invalid!" := by
    intro α f
    unfold jwt_decode at hfail
    rcases hfail with h | ⟨p, hp, hu⟩
    · simp [validateGate, h]
    · simp [validateGate, hp, hu]
  have e1 : chatEndpoint (some s) body secret now clock
      = if s = "" then GateResult.reject 401 "Token is missing!"
        else validateGate (fun current_user => chat current_user body clock)
          (parseToken (stripBearer s)) secret now := rfl
  have e2 : verifyEndpoint (some s) secret now
      = if s = "" then GateResult.reject 401 "Token is missing!"
        else validateGate verify_token (parseToken (stripBearer s)) secret now := rfl
  rw [e1, e2, if_neg hs, if_neg hs, core, core]
  exact ⟨rfl, rfl⟩

theorem C3_uniform_invalid_witness :
    ("garbage" : String) ≠ ""
    ∧ (jwt_decode (stripBearer "garbage") SECRET_KEY 0 = none
        ∨ ∃ p, jwt_decode (stripBearer "garbage") SECRET_KEY 0 = some p
            ∧ p.username = none)
    ∧ chatEndpoint (some "garbage") none SECRET_KEY 0 ⟨2025, 11, 12, 10, 30, 0, 0⟩
        = GateResult.reject 401 "Token is invalid!"
    ∧ verifyEndpoint (some "garbage") SECRET_KEY 0
        = GateResult.reject 401 "Token is invalid!" :=
  ⟨by decide, Or.inl (by decide),
    C3_uniform_invalid "garbage" SECRET_KEY 0 none ⟨2025, 11, 12, 10, 30, 0, 0⟩
      (by decide) (Or.inl (by decide))⟩

end Chatbot

namespace Chatbot

theorem lookup_users_cases (u : String) (r : UserRec)
    (h : users.lookup u = some r) :
    (u = "admin" ∧ r = { password := "admin123", name := "Admin User" })
    ∨ (u = "user" ∧ r = { password := "user123", name := "Test User" }) := by
  by_cases h1 : u = "admin"
  · subst h1
    left
    refine ⟨rfl, ?_⟩
    simp [users, List.lookup] at h
    exact h.symm
  · by_cases h2 : u = "user"
    · subst h2
      right
      refine ⟨rfl, ?_⟩
      simp [users, List.lookup] at h
      exact h.symm
    · exfalso
      have b1 : (u == "admin") = false := beq_eq_false_iff_ne.mpr h1
      have b2 : (u == "user") = false := beq_eq_false_iff_ne.mpr h2
      simp [users, List.lookup, b1, b2] at h

/-- C2: for each credential pair of the user table, login answers 200 with
the message Login successful, the issued token and the user object of
username and display name; the token is the signed payload built by
token_payload, whose expiry is issuance plus 24 hours, and gate validation
of that token at issuance time accepts it and resolves the same username. -/
theorem C2_login_issues_valid_token (u : String) (r : UserRec) (secret : String)
    (now : Int) (h : users.lookup u = some r) :
    login (some ⟨some u, some r.password⟩) secret now
      = LoginResponse.success 200 "Login successful"
          (jwt_encode (token_payload u r.name now) secret) u r.name
    ∧ validateGate (fun x => x)
        (Token.signed (token_payload u r.name now)
          (signPayload secret (token_payload u r.name now))) secret now
      = GateResult.pass u
    ∧ (token_payload u r.name now).exp = some (now + 86400) := by
  have hval : validateGate (fun x : String => x)
      (Token.signed (token_payload u r.name now)
        (signPayload secret (token_payload u r.name now))) secret now
      = GateResult.pass u := by
    have hle : ¬ (now + 86400 ≤ now) := by omega
    simp [validateGate, jwtDecodeT, token_payload, hle]
  rcases lookup_users_cases u r h with ⟨hu, hr⟩ | ⟨hu, hr⟩ <;> subst hu <;> subst hr <;>
    exact ⟨rfl, hval, rfl⟩

theorem C2_login_issues_valid_token_witness :
    users.lookup "admin" = some { password := "admin123", name := "Admin User" }
    ∧ (login (some ⟨some "admin", some "admin123"⟩) SECRET_KEY 0
        = LoginResponse.success 200 "Login successful"
            (jwt_encode (token_payload "admin" "Admin User" 0) SECRET_KEY)
            "admin" "Admin User"
      ∧ validateGate (fun x => x)
          (Token.signed (token_payload "admin" "Admin User" 0)
            (signPayload SECRET_KEY (token_payload "admin" "Admin User" 0))) SECRET_KEY 0
        = GateResult.pass "admin"
      ∧ (token_payload "admin" "Admin User" 0).exp = some (0 + 86400)) :=
  ⟨by decide,
    C2_login_issues_valid_token "admin" { password := "admin123", name := "Admin User" }
      SECRET_KEY 0 (by decide)⟩

/-- C5: the reply of an authenticated chat request with a non-empty message
is exactly first-match-wins substring containment on the lowercased message
over the ordered keyword groups, with the fallback reply whenever no group
matches, so every non-empty message yields exactly one reply with status
200. -/
theorem C5_first_match_wins (current_user m : String) (clock : Datetime)
    (hm : m ≠ "") :
    chat current_user (some ⟨some m⟩) clock
      = ChatResponse.ok 200
          (firstMatch (pyLower m) (keywordGroups current_user clock))
          (isoformat clock)
    ∧ botReply current_user (pyLower m) clock
      = firstMatch (pyLower m) (keywordGroups current_user clock) := by
  have hb : botReply current_user (pyLower m) clock
      = firstMatch (pyLower m) (keywordGroups current_user clock) := by
    simp [botReply, firstMatch, keywordGroups, fallbackReply]
  refine ⟨?_, hb⟩
  have e1 : chat current_user (some ⟨some m⟩) clock
      = if m = "" then ChatResponse.badRequest 400 "No message provided"
        else ChatResponse.ok 200 (botReply current_user (pyLower m) clock)
          (isoformat clock) := rfl
  rw [e1, if_neg hm, hb]

theorem C5_first_match_wins_witness :
    ("What is the weather like" : String) ≠ ""
    ∧ (chat "admin" (some ⟨some "What is the weather like"⟩) ⟨2025, 11, 12, 10, 30, 0, 0⟩
        = ChatResponse.ok 200
            (firstMatch (pyLower "What is the weather like")
              (keywordGroups "admin" ⟨2025, 11, 12, 10, 30, 0, 0⟩))
            (isoformat ⟨2025, 11, 12, 10, 30, 0, 0⟩)
      ∧ botReply "admin" (pyLower "What is the weather like") ⟨2025, 11, 12, 10, 30, 0, 0⟩
        = firstMatch (pyLower "What is the weather like")
            (keywordGroups "admin" ⟨2025, 11, 12, 10, 30, 0, 0⟩)) :=
  ⟨by decide,
    C5_first_match_wins "admin" "What is the weather like" ⟨2025, 11, 12, 10, 30, 0, 0⟩
      (by decide)⟩

theorem pyLower_empty_iff (m : String) : pyLower m = "" ↔ m = "" := by
  cases m with
  | mk l =>
    cases l with
    | nil => exact ⟨fun _ => rfl, fun _ => rfl⟩
    | cons c cs =>
      constructor
      · intro h
        exact absurd (congrArg String.data h) (by simp [pyLower])
      · intro h
        exact absurd (congrArg String.data h) (by simp)

theorem chat_lower_congr (current_user m1 m2 : String) (clock : Datetime)
    (h : pyLower m1 = pyLower m2) :
    chat current_user (some ⟨some m1⟩) clock
      = chat current_user (some ⟨some m2⟩) clock := by
  have e : ∀ m : String, chat current_user (some ⟨some m⟩) clock
      = if m = "" then ChatResponse.badRequest 400 "No message provided"
        else ChatResponse.ok 200 (botReply current_user (pyLower m) clock)
          (isoformat clock) := fun m => rfl
  rw [e m1, e m2]
  by_cases h1 : m1 = ""
  · have h2 : m2 = "" := by
      rw [← pyLower_empty_iff]
      rw [← h, h1]
      rfl
    rw [if_pos h1, if_pos h2]
  · have h2 : m2 ≠ "" := by
      intro hc
      apply h1
      rw [← pyLower_empty_iff, h, hc]
      rfl
    rw [if_neg h1, if_neg h2, h]

/-- C7: two chat requests whose messages agree after lowercasing, evaluated
with the same token, secret and clock, get identical responses from the
chat endpoint: the reply is a function of the lowercased message content,
the clock instant and the resolved identity. -/
theorem C7_case_insensitive (auth : Option String) (m1 m2 : String)
    (secret : String) (now : Int) (clock : Datetime) (current_user : String)
    (h : pyLower m1 = pyLower m2) :
    chat current_user (some ⟨some m1⟩) clock
      = chat current_user (some ⟨some m2⟩) clock
    ∧ chatEndpoint auth (some ⟨some m1⟩) secret now clock
      = chatEndpoint auth (some ⟨some m2⟩) secret now clock := by
  refine ⟨chat_lower_congr current_user m1 m2 clock h, ?_⟩
  cases auth with
  | none => rfl
  | some s =>
    have e : ∀ m : String, chatEndpoint (some s) (some ⟨some m⟩) secret now clock
        = if s = "" then GateResult.reject 401 "Token is missing!"
          else validateGate (fun cu => chat cu (some ⟨some m⟩) clock)
            (parseToken (stripBearer s)) secret now := fun m => rfl
    rw [e m1, e m2]
    by_cases hs : s = ""
    · rw [if_pos hs, if_pos hs]
    · have hf : (fun cu => chat cu (some ⟨some m1⟩) clock)
          = (fun cu => chat cu (some ⟨some m2⟩) clock) := by
        funext cu
        exact chat_lower_congr cu m1 m2 clock h
      rw [if_neg hs, if_neg hs, hf]

theorem C7_case_insensitive_witness :
    pyLower "BYE" = pyLower "bye"
    ∧ (chat "admin" (some ⟨some "BYE"⟩) ⟨2025, 11, 12, 10, 30, 0, 0⟩
        = chat "admin" (some ⟨some "bye"⟩) ⟨2025, 11, 12, 10, 30, 0, 0⟩
      ∧ chatEndpoint (some (jwt_encode (token_payload "admin" "Admin User" 0) SECRET_KEY))
          (some ⟨some "BYE"⟩) SECRET_KEY 0 ⟨2025, 11, 12, 10, 30, 0, 0⟩
        = chatEndpoint (some (jwt_encode (token_payload "admin" "Admin User" 0) SECRET_KEY))
            (some ⟨some "bye"⟩) SECRET_KEY 0 ⟨2025, 11, 12, 10, 30, 0, 0⟩) :=
  ⟨by decide,
    C7_case_insensitive (some (jwt_encode (token_payload "admin" "Admin User" 0) SECRET_KEY))
      "BYE" "bye" SECRET_KEY 0 ⟨2025, 11, 12, 10, 30, 0, 0⟩ "admin" (by decide)⟩

end Chatbot

namespace Chatbot

/-- C6 counterexample: the full pipeline on POST /api/chat with message
Hello there and a freshly issued valid token for admin answers 200, but the
response text is Hello admin with the username, and does not contain the
substring Hello Admin User. -/
theorem C6_response_counterexample :
    chatEndpoint (some ("Bearer " ++ adminTokenAt0)) (some ⟨some "Hello there"⟩)
        SECRET_KEY 0 sampleClock
      = GateResult.pass (ChatResponse.ok 200 "Hello admin! How can I help you today?"
          (isoformat sampleClock))
    ∧ strContains "Hello admin! How can I help you today?" "Hello Admin User" = false := by
  exact ⟨by decide, by decide⟩

/-- C6 amended: POST /api/chat with message Hello there and a valid token
for user admin answers 200 with a response containing the substring Hello
admin, the greeting built from the username the token resolves to rather
than the display name, together with the isoformat timestamp of the
handling instant. -/
theorem C6_hello_admin (clock : Datetime) (now : Int) (hnow : now < 86400) :
    chatEndpoint (some ("Bearer " ++ adminTokenAt0)) (some ⟨some "Hello there"⟩)
        SECRET_KEY now clock
      = GateResult.pass (ChatResponse.ok 200 "Hello admin! How can I help you today?"
          (isoformat clock))
    ∧ strContains "Hello admin! How can I help you today?" "Hello admin" = true := by
  refine ⟨?_, by decide⟩
  have e1 : chatEndpoint (some ("Bearer " ++ adminTokenAt0)) (some ⟨some "Hello there"⟩)
        SECRET_KEY now clock
      = if ("Bearer " ++ adminTokenAt0) = "" then GateResult.reject 401 "Token is missing!"
        else validateGate (fun cu => chat cu (some ⟨some "Hello there"⟩) clock)
          (parseToken (stripBearer ("Bearer " ++ adminTokenAt0))) SECRET_KEY now := rfl
  rw [e1, if_neg (bearer_append_ne_empty adminTokenAt0), stripBearer_of_bearer]
  have hparse : parseToken adminTokenAt0
      = Token.signed (token_payload "admin" "Admin User" 0)
          (signPayload SECRET_KEY (token_payload "admin" "Admin User" 0)) := by decide
  rw [hparse]
  have hle : ¬ ((86400 : Int) ≤ now) := by omega
  have hgate : validateGate (fun cu => chat cu (some ⟨some "Hello there"⟩) clock)
      (Token.signed (token_payload "admin" "Admin User" 0)
        (signPayload SECRET_KEY (token_payload "admin" "Admin User" 0))) SECRET_KEY now
      = GateResult.pass (chat "admin" (some ⟨some "Hello there"⟩) clock) := by
    simp [validateGate, jwtDecodeT, token_payload, hle]
  rw [hgate]
  have hbot : botReply "admin" (pyLower "Hello there") clock
      = "Hello admin! How can I help you today?" := by
    have hc : (strContains (pyLower "Hello there") "hello"
        || strContains (pyLower "Hello there") "hi") = true := by decide
    simp [botReply, hc]
  have hchat : chat "admin" (some ⟨some "Hello there"⟩) clock
      = ChatResponse.ok 200 "Hello admin! How can I help you today?" (isoformat clock) := by
    have e2 : chat "admin" (some ⟨some "Hello there"⟩) clock
        = if ("Hello there" : String) = "" then ChatResponse.badRequest 400 "No message provided"
          else ChatResponse.ok 200 (botReply "admin" (pyLower "Hello there") clock)
            (isoformat clock) := rfl
    rw [e2, if_neg (by decide), hbot]
  rw [hchat]

theorem C6_hello_admin_witness :
    (0 : Int) < 86400
    ∧ (chatEndpoint (some ("Bearer " ++ adminTokenAt0)) (some ⟨some "Hello there"⟩)
          SECRET_KEY 0 sampleClock
        = GateResult.pass (ChatResponse.ok 200 "Hello admin! How can I help you today?"
            (isoformat sampleClock))
      ∧ strContains "Hello admin! How can I help you today?" "Hello admin" = true) :=
  ⟨by decide, C6_hello_admin sampleClock 0 (by decide)⟩

end Chatbot
